import Mathlib

/-
Shallow embedding of the SSH chat-relay server (`src/main.rs`).

The server is a `russh` handler: a per-connection `Server` value holding a
shared registry `clients : HashMap (usize, ChannelId) → Handle`, a connection
id and the authenticated username.  Handles, channel ids and connection ids
are opaque to the program logic and are modelled as `Nat`.  Asynchronous
effects (writes to peer handles, the verification RPC, the forwarded-channel
open) are modelled by passing their results in as explicit arguments and
recording the attempted operations in an explicit event list.
-/

set_option autoImplicit false

namespace UnkeySsh

/-- Result of the remote key verification, `struct KeyVerifyData { valid: bool }`. -/
structure KeyVerifyData where
  valid : Bool
deriving DecidableEq, Repr

/-- Opaque transport/parse error of the unkey client call. -/
inductive UnkeyError where
  | transport (code : Nat)
deriving DecidableEq, Repr

/-- The part of the unkey `verify_key` response that the program reads (`res.valid`). -/
structure VerifyKeyResponse where
  valid : Bool
deriving DecidableEq, Repr

/-- `verify_key`: `unkey_client.verify_key(req).await.ok().map(|res| KeyVerifyData { valid: res.valid })`.
The in-flight RPC result is the explicit argument `resp`. -/
def verify_key (resp : Except UnkeyError VerifyKeyResponse) : Option KeyVerifyData :=
  Option.map (fun res => { valid := res.valid }) resp.toOption

/-- The `russh` authentication method bitflags that can be advertised in a rejection. -/
structure MethodSet where
  none_bit : Bool
  password : Bool
  publickey : Bool
  hostbased : Bool
  keyboard_interactive : Bool
deriving DecidableEq, Repr

/-- `MethodSet::PASSWORD`: the singleton set containing only the password method. -/
def MethodSet.PASSWORD : MethodSet :=
  { none_bit := false, password := true, publickey := false,
    hostbased := false, keyboard_interactive := false }

/-- `russh::server::Auth` as produced by this program. -/
inductive Auth where
  | Accept : Auth
  | Reject : Option MethodSet → Auth
deriving DecidableEq, Repr

/-- The `russh::Error` values this program produces (`russh::Error::Disconnect`). -/
inductive RusshError where
  | Disconnect
deriving DecidableEq, Repr

/-- Per-connection handler state: the shared registry contents, the connection id
and the authenticated username (`struct Server`). -/
structure Handler where
  clients : List ((Nat × Nat) × Nat)
  id : Nat
  connect_username : String
deriving DecidableEq, Repr

/-- One attempted write during a broadcast: target registry entry and the message. -/
structure Write where
  client_id : Nat
  channel : Nat
  handle : Nat
  data : String
deriving DecidableEq, Repr

/-- The loop body of `post`: iterate the registry entries in order; for each entry,
if `!exclude_self || *client_id != self.id`, write the buffer to the handle and
discard the write's result (`let _ = client_handle.data(..).await`). `res` supplies
each write's result, which the code ignores. -/
def postLoop (selfId : Nat) (d : String) (exclude_self : Bool)
    (res : Nat × Nat → Except RusshError Unit) :
    List ((Nat × Nat) × Nat) → List Write
  | [] => []
  | ((client_id, channel), client_handle) :: rest =>
    if !exclude_self || client_id != selfId then
      let _w := res (client_id, channel)
      { client_id := client_id, channel := channel, handle := client_handle, data := d } ::
        postLoop selfId d exclude_self res rest
    else
      postLoop selfId d exclude_self res rest

/-- `Server::post`: lock the registry and broadcast `d` to every selected entry.
Returns the handler state after the call and the ordered list of attempted writes. -/
def post (s : Handler) (d : String) (exclude_self : Bool)
    (res : Nat × Nat → Except RusshError Unit) : Handler × List Write :=
  (s, postLoop s.id d exclude_self res s.clients)

/-- `HashMap::insert` on the registry contents: replace the value at the key if
present, otherwise add the binding. -/
def hmInsert (k : Nat × Nat) (v : Nat) : List ((Nat × Nat) × Nat) → List ((Nat × Nat) × Nat)
  | [] => [(k, v)]
  | (k', v') :: rest => if k' = k then (k, v) :: rest else (k', v') :: hmInsert k v rest

/-- `channel_open_session`: insert `(self.id, channel.id()) → session.handle()` into
the registry, then broadcast the connected banner to all entries (`exclude_self = false`),
then return `Ok(true)`. -/
def channel_open_session (s : Handler) (channelId : Nat) (sessionHandle : Nat)
    (res : Nat × Nat → Except RusshError Unit) :
    Handler × List Write × Except RusshError Bool :=
  let s1 : Handler := { s with clients := hmInsert (s.id, channelId) sessionHandle s.clients }
  let message := s1.connect_username ++ " connected to the server.\r\n"
  let r := post s1 message false res
  (r.1, r.2, Except.ok true)

/-- `auth_password`: `match verify_key(password).await { Some(key) if !key.valid => Reject,
_ => { self.connect_username = user; Accept } }`. -/
def auth_password (s : Handler) (user : String)
    (resp : Except UnkeyError VerifyKeyResponse) :
    Handler × Except RusshError Auth :=
  match verify_key resp with
  | some key =>
    if !key.valid then
      (s, Except.ok (Auth.Reject (some MethodSet.PASSWORD)))
    else
      ({ s with connect_username := user }, Except.ok Auth.Accept)
  | none => ({ s with connect_username := user }, Except.ok Auth.Accept)

/-- An SSH public key, opaque to the program (the handler ignores it). -/
structure PublicKey where
  keyBytes : List Nat
deriving DecidableEq, Repr

/-- `auth_publickey`: unconditionally `Reject { proceed_with_methods: Some(PASSWORD) }`. -/
def auth_publickey (s : Handler) (_user : String) (_key : PublicKey) :
    Handler × Except RusshError Auth :=
  (s, Except.ok (Auth.Reject (some MethodSet.PASSWORD)))

/-- Is `b` a UTF-8 continuation byte (`0x80..=0xBF`)? -/
def isCont (b : Nat) : Bool := 0x80 ≤ b && b ≤ 0xBF

/-- The Unicode replacement character U+FFFD. -/
def replacementChar : Char := Char.ofNat 0xFFFD

/-- Acceptable second byte of a three-byte UTF-8 sequence with lead byte `b`
(Rust `run_utf8_validation`: `(0xE0, 0xA0..=0xBF) | (0xE1..=0xEC, 0x80..=0xBF) |
(0xED, 0x80..=0x9F) | (0xEE..=0xEF, 0x80..=0xBF)`). -/
def utf8Second3 (b c : Nat) : Bool :=
  if b = 0xE0 then 0xA0 ≤ c && c ≤ 0xBF
  else if b = 0xED then 0x80 ≤ c && c ≤ 0x9F
  else isCont c

/-- Acceptable second byte of a four-byte UTF-8 sequence with lead byte `b`
(Rust `run_utf8_validation`: `(0xF0, 0x90..=0xBF) | (0xF1..=0xF3, 0x80..=0xBF) |
(0xF4, 0x80..=0x8F)`). -/
def utf8Second4 (b c : Nat) : Bool :=
  if b = 0xF0 then 0x90 ≤ c && c ≤ 0xBF
  else if b = 0xF4 then 0x80 ≤ c && c ≤ 0x8F
  else isCont c

/-- UTF-8 decoding with the substitution-of-maximal-subparts policy of Rust's
`String::from_utf8_lossy`: each maximal prefix of a valid sequence that cannot be
completed is replaced by one U+FFFD and decoding resumes at the offending byte.
Structural recursion on a fuel counter; one unit of fuel is spent per decoded
item and at least one input byte is consumed per item, so `fuel = length` suffices. -/
def lossyDecode : Nat → List Nat → List Char
  | 0, _ => []
  | _, [] => []
  | fuel + 1, b :: rest =>
    if b < 0x80 then Char.ofNat b :: lossyDecode fuel rest
    else if 0xC2 ≤ b && b ≤ 0xDF then
      match rest with
      | [] => [replacementChar]
      | c1 :: r1 =>
        if isCont c1 then
          Char.ofNat ((b - 0xC0) * 0x40 + (c1 - 0x80)) :: lossyDecode fuel r1
        else
          replacementChar :: lossyDecode fuel (c1 :: r1)
    else if 0xE0 ≤ b && b ≤ 0xEF then
      match rest with
      | [] => [replacementChar]
      | c1 :: r1 =>
        if utf8Second3 b c1 then
          match r1 with
          | [] => [replacementChar]
          | c2 :: r2 =>
            if isCont c2 then
              Char.ofNat ((b - 0xE0) * 0x1000 + (c1 - 0x80) * 0x40 + (c2 - 0x80)) ::
                lossyDecode fuel r2
            else
              replacementChar :: lossyDecode fuel (c2 :: r2)
        else
          replacementChar :: lossyDecode fuel (c1 :: r1)
    else if 0xF0 ≤ b && b ≤ 0xF4 then
      match rest with
      | [] => [replacementChar]
      | c1 :: r1 =>
        if utf8Second4 b c1 then
          match r1 with
          | [] => [replacementChar]
          | c2 :: r2 =>
            if isCont c2 then
              match r2 with
              | [] => [replacementChar]
              | c3 :: r3 =>
                if isCont c3 then
                  Char.ofNat ((b - 0xF0) * 0x40000 + (c1 - 0x80) * 0x1000 +
                      (c2 - 0x80) * 0x40 + (c3 - 0x80)) :: lossyDecode fuel r3
                else
                  replacementChar :: lossyDecode fuel (c3 :: r3)
            else
              replacementChar :: lossyDecode fuel (c2 :: r2)
        else
          replacementChar :: lossyDecode fuel (c1 :: r1)
    else
      replacementChar :: lossyDecode fuel rest

/-- `String::from_utf8_lossy` on a byte list. -/
def from_utf8_lossy (payload : List Nat) : String :=
  String.mk (lossyDecode payload.length payload)

/-- The `data` callback: on payload `[0x03]` broadcast the disconnect banner with
`exclude_self = true` and return `Err(russh::Error::Disconnect)`; otherwise broadcast
the chat line (UTF-8-lossy payload) with `exclude_self = false` and return `Ok(())`. -/
def data (s : Handler) (_channel : Nat) (payload : List Nat)
    (res : Nat × Nat → Except RusshError Unit) :
    Handler × List Write × Except RusshError Unit :=
  if payload = [3] then
    let message := s.connect_username ++ " disconnected from the server.\r\n"
    let r := post s message true res
    (r.1, r.2, Except.error RusshError.Disconnect)
  else
    let message := "[" ++ s.connect_username ++ "]: " ++ from_utf8_lossy payload ++ "\r\n"
    let r := post s message false res
    (r.1, r.2, Except.ok ())

/-- Events issued by the spawned forwarding task. -/
inductive FwdEvent where
  | openReq (connected_address : String) (connected_port : Nat)
      (originator_address : String) (originator_port : Nat)
  | dataWrite (bytes : List Nat)
  | eofReq
deriving DecidableEq, Repr

/-- How the spawned forwarding task ends: normally, or in a panic (from `.unwrap()`). -/
inductive TaskEnd where
  | finished
  | panicked
deriving DecidableEq, Repr

/-- The arguments captured by the spawned forwarding task. -/
structure ForwardTask where
  address : String
  port : Nat
deriving DecidableEq, Repr

/-- The advertised originator address of the forwarded channel. -/
def originatorHost : String := "1.2.3.4"

/-- The payload written to the forwarded channel, `b"Hello from a forwarded port"`. -/
def helloBytes : List Nat :=
  List.map Char.toNat ("Hello from a forwarded port".data)

/-- `tcpip_forward`: capture `(address, *port)` for the spawned task and return `Ok(true)`. -/
def tcpip_forward (s : Handler) (address : String) (port : Nat) :
    Handler × ForwardTask × Except RusshError Bool :=
  (s, { address := address, port := port }, Except.ok true)

/-- The spawned forwarding task: `channel_open_forwarded_tcpip(address, port,
"1.2.3.4", 1234).await.unwrap()` — a failed open panics the task — then
`let _ = channel.data(b"Hello from a forwarded port").await` and
`let _ = channel.eof().await`, whose results are discarded. -/
def forwardingTask (t : ForwardTask) (openRes : Except RusshError Unit)
    (writeRes eofRes : Except RusshError Unit) : List FwdEvent × TaskEnd :=
  match openRes with
  | Except.error _ =>
    ([FwdEvent.openReq t.address t.port originatorHost 1234], TaskEnd.panicked)
  | Except.ok _ =>
    let _w := writeRes
    let _e := eofRes
    ([FwdEvent.openReq t.address t.port originatorHost 1234,
      FwdEvent.dataWrite helloBytes, FwdEvent.eofReq], TaskEnd.finished)

/-- `new_client`: `self.id += 1; self.clone()` — the fresh handler carries the
incremented id and shares the registry. -/
def new_client (s : Handler) : Handler :=
  { s with id := s.id + 1 }

/-! ### Helper lemmas about the broadcast loop and the registry -/

/-- The broadcast loop does not read the values of the discarded write results. -/
theorem postLoop_res_irrel (selfId : Nat) (d : String) (ex : Bool)
    (res res' : Nat × Nat → Except RusshError Unit) (l : List ((Nat × Nat) × Nat)) :
    postLoop selfId d ex res l = postLoop selfId d ex res' l := by
  induction l with
  | nil => rfl
  | cons e rest ih =>
    obtain ⟨⟨a, b⟩, hnd⟩ := e
    simp only [postLoop, ih]

/-- With `exclude_self = false` the loop writes to every entry, in order. -/
theorem postLoop_false_eq (selfId : Nat) (d : String)
    (res : Nat × Nat → Except RusshError Unit) (l : List ((Nat × Nat) × Nat)) :
    postLoop selfId d false res l =
      l.map (fun e => { client_id := e.1.1, channel := e.1.2, handle := e.2, data := d }) := by
  induction l with
  | nil => rfl
  | cons e rest ih =>
    obtain ⟨⟨a, b⟩, hnd⟩ := e
    simp [postLoop, ih]

/-- With `exclude_self = true` the loop writes to exactly the entries whose
connection id differs from the caller's, in order. -/
theorem postLoop_true_eq (selfId : Nat) (d : String)
    (res : Nat × Nat → Except RusshError Unit) (l : List ((Nat × Nat) × Nat)) :
    postLoop selfId d true res l =
      (l.filter (fun e => e.1.1 != selfId)).map
        (fun e => { client_id := e.1.1, channel := e.1.2, handle := e.2, data := d }) := by
  induction l with
  | nil => rfl
  | cons e rest ih =>
    obtain ⟨⟨a, b⟩, hnd⟩ := e
    by_cases hab : a = selfId
    · subst hab
      simp [postLoop, ih, List.filter]
    · have hb : (a != selfId) = true := by simp [hab]
      simp [postLoop, ih, List.filter, hb]

/-- The key just inserted by `hmInsert` is bound to the inserted value. -/
theorem hmInsert_self_mem (k : Nat × Nat) (v : Nat) (l : List ((Nat × Nat) × Nat)) :
    (k, v) ∈ hmInsert k v l := by
  induction l with
  | nil => simp [hmInsert]
  | cons e rest ih =>
    obtain ⟨k', v'⟩ := e
    by_cases h : k' = k
    · simp [hmInsert, h]
    · simp only [hmInsert, if_neg h, List.mem_cons]
      exact Or.inr ih

/-! ### Claim theorems -/

/-- Claim C1: `auth_password` replies `Reject` advertising the password method exactly
when the verification oracle returns a result with `valid = false`, and replies
`Accept` exactly when the oracle returns `valid = true` or the oracle call fails;
these are the only ways the call accepts. -/
theorem C1_auth_password_accept_iff (s : Handler) (user : String)
    (resp : Except UnkeyError VerifyKeyResponse) :
    ((auth_password s user resp).2 = Except.ok (Auth.Reject (some MethodSet.PASSWORD)) ↔
      resp = Except.ok { valid := false })
    ∧ ((auth_password s user resp).2 = Except.ok Auth.Accept ↔
      (resp = Except.ok { valid := true } ∨ ∃ e, resp = Except.error e)) := by
  cases resp with
  | ok r =>
    obtain ⟨v⟩ := r
    cases v <;> simp [auth_password, verify_key, Except.toOption]
  | error e => simp [auth_password, verify_key, Except.toOption]

/-- Claim C2: on the single byte `0x03`, `data` broadcasts the disconnect line to
exactly the registry entries whose connection id differs from the handler's, and
returns the disconnect error; the disconnect error is returned for the payload
`[0x03]` and for no other payload. -/
theorem C2_data_ctrl_c (s : Handler) (ch : Nat)
    (res : Nat × Nat → Except RusshError Unit) :
    ((data s ch [3] res).2.1 =
      (s.clients.filter (fun e => e.1.1 != s.id)).map
        (fun e => { client_id := e.1.1, channel := e.1.2, handle := e.2,
                    data := s.connect_username ++ " disconnected from the server.\r\n" }))
    ∧ ((data s ch [3] res).2.2 = Except.error RusshError.Disconnect)
    ∧ (∀ payload : List Nat,
        (data s ch payload res).2.2 = Except.error RusshError.Disconnect ↔ payload = [3]) := by
  refine ⟨?_, ?_, ?_⟩
  · simp [data, post, postLoop_true_eq]
  · simp [data, post]
  · intro payload
    by_cases h : payload = [3]
    · subst h
      simp [data, post]
    · simp [data, post, h]

/-- Claim C3: `channel_open_session` first inserts `(connection-id, channel-id) →
session handle` into the registry, then broadcasts the connected banner to every
entry of the updated registry — including the newly inserted one — and returns
accept (`Ok(true)`). -/
theorem C3_channel_open_session_inserts_then_broadcasts (s : Handler)
    (chId hndl : Nat) (res : Nat × Nat → Except RusshError Unit) :
    ((channel_open_session s chId hndl res).1.clients =
      hmInsert (s.id, chId) hndl s.clients)
    ∧ ((channel_open_session s chId hndl res).2.1 =
      (hmInsert (s.id, chId) hndl s.clients).map
        (fun e => { client_id := e.1.1, channel := e.1.2, handle := e.2,
                    data := s.connect_username ++ " connected to the server.\r\n" }))
    ∧ (({ client_id := s.id, channel := chId, handle := hndl,
          data := s.connect_username ++ " connected to the server.\r\n" } : Write)
        ∈ (channel_open_session s chId hndl res).2.1)
    ∧ ((channel_open_session s chId hndl res).2.2 = Except.ok true) := by
  refine ⟨rfl, ?_, ?_, rfl⟩
  · simp [channel_open_session, post, postLoop_false_eq]
  · have hmem := hmInsert_self_mem (s.id, chId) hndl s.clients
    have hmap := List.mem_map_of_mem
      (f := fun (e : (Nat × Nat) × Nat) =>
        ({ client_id := e.1.1, channel := e.1.2, handle := e.2,
           data := s.connect_username ++ " connected to the server.\r\n" } : Write)) hmem
    simpa [channel_open_session, post, postLoop_false_eq] using hmap

/-- Claim C4: on any payload other than `[0x03]`, `data` broadcasts exactly one chat
line `"[<username>]: <payload-as-utf8-lossy>\r\n"` to every registry entry — the
sender's entries included — and returns success. -/
theorem C4_data_broadcasts_chat_line (s : Handler) (ch : Nat) (payload : List Nat)
    (res : Nat × Nat → Except RusshError Unit) (h : payload ≠ [3]) :
    ((data s ch payload res).2.1 =
      s.clients.map
        (fun e => { client_id := e.1.1, channel := e.1.2, handle := e.2,
                    data := "[" ++ s.connect_username ++ "]: " ++
                      from_utf8_lossy payload ++ "\r\n" }))
    ∧ ((data s ch payload res).2.2 = Except.ok ()) := by
  constructor
  · simp [data, post, postLoop_false_eq, h]
  · simp [data, post, h]

/-- Sample handler state used to instantiate hypotheses at concrete inputs. -/
def sampleHandler : Handler :=
  { clients := [((1, 1), 10), ((2, 5), 20)], id := 1, connect_username := "hugo" }

/-- Sample write-result oracle: every write succeeds. -/
def sampleRes : Nat × Nat → Except RusshError Unit := fun _ => Except.ok ()

/-- Witness for claim C4 at the concrete payload `[0xFF, 0xFE]` (invalid UTF-8). -/
theorem C4_data_broadcasts_chat_line_witness :
    ([255, 254] : List Nat) ≠ [3]
    ∧ (((data sampleHandler 0 [255, 254] sampleRes).2.1 =
        sampleHandler.clients.map
          (fun e => { client_id := e.1.1, channel := e.1.2, handle := e.2,
                      data := "[" ++ sampleHandler.connect_username ++ "]: " ++
                        from_utf8_lossy [255, 254] ++ "\r\n" }))
      ∧ ((data sampleHandler 0 [255, 254] sampleRes).2.2 = Except.ok ())) :=
  ⟨by decide, C4_data_broadcasts_chat_line sampleHandler 0 [255, 254] sampleRes (by decide)⟩

/-- Claim C5: `post` with `exclude_self = true` writes the buffer to exactly the
entries whose connection id differs from the caller's (every channel of the caller's
own connection is skipped); with `exclude_self = false` it writes to every entry;
and the attempted writes and resulting state are independent of which individual
writes fail, so a failed write never aborts the iteration. -/
theorem C5_post_selects_entries (s : Handler) (d : String)
    (res res' : Nat × Nat → Except RusshError Unit) :
    ((post s d true res).2 =
      (s.clients.filter (fun e => e.1.1 != s.id)).map
        (fun e => { client_id := e.1.1, channel := e.1.2, handle := e.2, data := d }))
    ∧ ((post s d false res).2 =
      s.clients.map
        (fun e => { client_id := e.1.1, channel := e.1.2, handle := e.2, data := d }))
    ∧ (∀ ex : Bool, post s d ex res = post s d ex res') := by
  refine ⟨postLoop_true_eq s.id d res s.clients, postLoop_false_eq s.id d res s.clients, ?_⟩
  intro ex
  unfold post
  rw [postLoop_res_irrel s.id d ex res res']

/-- Claim C6: every `tcpip_forward` request is accepted (`Ok(true)`), and when the
forwarded-channel open succeeds the spawned task issues exactly one open request
advertising originator `"1.2.3.4":1234`, then writes exactly the ASCII bytes of
`"Hello from a forwarded port"`, then sends EOF. -/
theorem C6_tcpip_forward_greeting (s : Handler) (address : String) (port : Nat)
    (writeRes eofRes : Except RusshError Unit) :
    ((tcpip_forward s address port).2.2 = Except.ok true)
    ∧ (forwardingTask (tcpip_forward s address port).2.1 (Except.ok ()) writeRes eofRes =
        ([FwdEvent.openReq address port originatorHost 1234,
          FwdEvent.dataWrite helloBytes, FwdEvent.eofReq], TaskEnd.finished))
    ∧ (originatorHost = "1.2.3.4")
    ∧ (helloBytes = [72, 101, 108, 108, 111, 32, 102, 114, 111, 109, 32, 97, 32,
        102, 111, 114, 119, 97, 114, 100, 101, 100, 32, 112, 111, 114, 116]) := by
  refine ⟨rfl, rfl, rfl, ?_⟩
  decide

/-- Claim C7 counterexample: a forwarding task whose channel open fails does not
swallow the failure — the `.unwrap()` on the open result makes the spawned task
panic, so the claim that no code path in the forwarding task panics is false. -/
theorem C7_open_failure_panics :
    (forwardingTask { address := "example.com", port := 0 }
      (Except.error RusshError.Disconnect) (Except.ok ()) (Except.ok ())).2 =
      TaskEnd.panicked := rfl

/-- Claim C7 (amended): failures of the data write and the EOF after a successful
channel open are swallowed — the task finishes with the same event sequence
regardless of those results — but a failure to open the forwarded channel makes
the spawned task panic via `.unwrap()`. -/
theorem C7_forwarding_failure_handling (t : ForwardTask)
    (w e w' e' : Except RusshError Unit) (err : RusshError) :
    (forwardingTask t (Except.ok ()) w e = forwardingTask t (Except.ok ()) w' e')
    ∧ ((forwardingTask t (Except.ok ()) w e).2 = TaskEnd.finished)
    ∧ ((forwardingTask t (Except.error err) w e).2 = TaskEnd.panicked) :=
  ⟨rfl, rfl, rfl⟩

/-- Claim C8: `auth_publickey` always replies `Reject` with password as the only
advertised continuation method, regardless of the presented user or key, and leaves
the handler state (registry, id, username) unchanged. -/
theorem C8_auth_publickey_always_rejects (s : Handler) (user : String) (key : PublicKey) :
    (auth_publickey s user key =
      (s, Except.ok (Auth.Reject (some MethodSet.PASSWORD))))
    ∧ (MethodSet.PASSWORD.password = true)
    ∧ (MethodSet.PASSWORD.publickey = false)
    ∧ (MethodSet.PASSWORD.hostbased = false)
    ∧ (MethodSet.PASSWORD.keyboard_interactive = false)
    ∧ (MethodSet.PASSWORD.none_bit = false)
    ∧ ((auth_publickey s user key).1.clients = s.clients)
    ∧ ((auth_publickey s user key).1.id = s.id)
    ∧ ((auth_publickey s user key).1.connect_username = s.connect_username) :=
  ⟨rfl, rfl, rfl, rfl, rfl, rfl, rfl, rfl, rfl⟩

/-- Claim C9: the authenticated-username field is written only by an accepting
`auth_password` call, which sets it to the presented user; a rejecting
`auth_password` leaves it unchanged, and `auth_publickey`, `channel_open_session`,
`data`, `post` and `tcpip_forward` never modify it. -/
theorem C9_username_frame (s : Handler) (user : String) (err : UnkeyError)
    (key : PublicKey) (chId hndl chan : Nat) (payload : List Nat) (d : String)
    (ex : Bool) (res : Nat × Nat → Except RusshError Unit) (a : String) (p : Nat) :
    ((auth_password s user (Except.ok { valid := false })).1.connect_username =
      s.connect_username)
    ∧ ((auth_password s user (Except.ok { valid := false })).2 =
      Except.ok (Auth.Reject (some MethodSet.PASSWORD)))
    ∧ ((auth_password s user (Except.ok { valid := true })).1.connect_username = user)
    ∧ ((auth_password s user (Except.error err)).1.connect_username = user)
    ∧ ((auth_publickey s user key).1.connect_username = s.connect_username)
    ∧ ((channel_open_session s chId hndl res).1.connect_username = s.connect_username)
    ∧ ((data s chan payload res).1.connect_username = s.connect_username)
    ∧ ((post s d ex res).1.connect_username = s.connect_username)
    ∧ ((tcpip_forward s a p).1.connect_username = s.connect_username) := by
  refine ⟨rfl, rfl, rfl, rfl, rfl, rfl, ?_, rfl, rfl⟩
  by_cases h : payload = [3] <;> simp [data, post, h]

/-- Claim C10: `post` never modifies the registry mapping — the entry list (keys and
associated handles) is identical before and after, on both `exclude_self` paths and
for any assignment of per-write results — and in particular the Ctrl-C broadcast in
`data` leaves the disconnecting sender's entries in place. -/
theorem C10_post_preserves_registry (s : Handler) (d : String) (ex : Bool)
    (res : Nat × Nat → Except RusshError Unit) (chan : Nat) (payload : List Nat) :
    ((post s d ex res).1.clients = s.clients)
    ∧ ((post s d ex res).1 = s)
    ∧ ((data s chan payload res).1.clients = s.clients) := by
  refine ⟨rfl, rfl, ?_⟩
  by_cases h : payload = [3] <;> simp [data, post, h]

end UnkeySsh
